import Mathlib

set_option maxRecDepth 8000

/-!
Verification development for the Problem_Solver repository (SmartSolver).

The repository is a small Express gateway (src/server.js, src/unnamed/part_003)
that proxies chat-completion requests to OpenAI or Anthropic, plus a browser
ApiService (src/api-service.js, src/unnamed/part_002) that builds prompts,
calls the gateway with a client-side retry loop, and parses the free-text model
output into typed solution/reframing records.

Strings are modelled as lists of characters (`Str`).  JSON values are modelled
by the inductive `Json`; `jsonParse` models the behaviour of JSON.parse on the
grammar exercised by this code base (numbers are modelled as integer literals;
every input appearing in the claims is covered).  JavaScript truthiness,
property access and the short-circuiting of optional chaining are modelled by
small explicit helpers next to their uses.
-/

/-- Strings of the JavaScript source, modelled as lists of characters. -/
abbrev Str := List Char

/-- JSON values, as produced by JSON.parse. -/
inductive Json where
  | null
  | bool (b : Bool)
  | num (n : Int)
  | str (s : Str)
  | arr (elems : List Json)
  | obj (fields : List (Str × Json))

/-- JavaScript truthiness of a JSON value: null, false, 0 and the empty
string are falsy, every array and object is truthy. -/
def jsTruthy : Json → Bool
  | .null => false
  | .bool b => b
  | .num n => n != 0
  | .str s => !s.isEmpty
  | .arr _ => true
  | .obj _ => true

/-- Property lookup on a JSON object field list.  JSON.parse keeps the last
occurrence of a duplicated key, so the last binding wins. -/
def lookupField (fields : List (Str × Json)) (k : Str) : Option Json :=
  (fields.reverse.find? (fun f => f.1 == k)).map (fun f => f.2)

/-- JavaScript property access `j.k` on a parsed JSON value, for the places
where the source has already ruled out null: objects yield the field (or
undefined, modelled as `none`); primitives and arrays yield undefined. -/
def jsPropOpt (j : Json) (k : Str) : Option Json :=
  match j with
  | .obj fields => lookupField fields k
  | _ => none

/-- The JavaScript `a || d` default idiom applied to a possibly-undefined
value: a present truthy value is kept, everything else falls to the default. -/
def jsOrD (v : Option Json) (d : Json) : Json :=
  match v with
  | some x => if jsTruthy x then x else d
  | none => d

/-- The `a || d` idiom for plain strings (undefined and the empty string fall
to the default), as in `req.body.provider || "openai"`. -/
def jsOrStr (v : Option Str) (d : Str) : Str :=
  match v with
  | some s => if s.isEmpty then d else s
  | none => d

/-- The `a || d` idiom for numbers (undefined and 0 fall to the default), as
in `req.body.max_tokens || 4000`. -/
def jsOrNat (v : Option Nat) (d : Nat) : Nat :=
  match v with
  | some n => if n = 0 then d else n
  | none => d

/-- Falsiness of a possibly-absent environment string (`!apiKey`): absent and
empty keys are both falsy. -/
def strFalsy (v : Option Str) : Bool :=
  match v with
  | some s => s.isEmpty
  | none => true

/-- String.prototype.includes: `hasSub sub s` is true when `sub` occurs as a
contiguous substring of `s`. -/
def hasSub (sub : Str) : Str → Bool
  | [] => sub.isEmpty
  | c :: rest => sub.isPrefixOf (c :: rest) || hasSub sub rest

/-- String.prototype.toUpperCase, on the ASCII strings used by the server. -/
def toUpperStr (s : Str) : Str := s.map Char.toUpper

/-! ## JSON.parse -/

/-- Skip JSON whitespace. -/
def skipWs (s : Str) : Str :=
  s.dropWhile (fun c => c == ' ' || c == '\t' || c == '\n' || c == '\r')

/-- Value of a hexadecimal digit. -/
def hexVal (c : Char) : Option Nat :=
  if '0' ≤ c ∧ c ≤ '9' then some (c.toNat - 48)
  else if 'a' ≤ c ∧ c ≤ 'f' then some (c.toNat - 87)
  else if 'A' ≤ c ∧ c ≤ 'F' then some (c.toNat - 55)
  else none

/-- Numeric value of a digit string. -/
def natOfDigits (ds : Str) : Nat :=
  ds.foldl (fun a c => a * 10 + (c.toNat - 48)) 0

/-- Body of a JSON string literal, after the opening quote: returns the
decoded characters and the input following the closing quote.  Fuelled by the
input length for structural recursion. -/
def strBody : Nat → Str → Option (Str × Str)
  | 0, _ => none
  | _ + 1, [] => none
  | f + 1, c :: rest =>
    if c = '"' then some ([], rest)
    else if c = '\\' then
      match rest with
      | [] => none
      | e :: r2 =>
        let esc : Option (Char × Str) :=
          if e = '"' then some ('"', r2)
          else if e = '\\' then some ('\\', r2)
          else if e = '/' then some ('/', r2)
          else if e = 'b' then some ('\x08', r2)
          else if e = 'f' then some ('\x0c', r2)
          else if e = 'n' then some ('\n', r2)
          else if e = 'r' then some ('\r', r2)
          else if e = 't' then some ('\t', r2)
          else if e = 'u' then
            match r2 with
            | h1 :: h2 :: h3 :: h4 :: r3 =>
              match hexVal h1, hexVal h2, hexVal h3, hexVal h4 with
              | some a, some b, some c2, some d =>
                some (Char.ofNat (((a * 16 + b) * 16 + c2) * 16 + d), r3)
              | _, _, _, _ => none
            | _ => none
          else none
        match esc with
        | some (ch, r3) => (strBody f r3).map (fun p => (ch :: p.1, p.2))
        | none => none
    else (strBody f rest).map (fun p => (c :: p.1, p.2))

/-- A JSON integer literal (the numeric subset this code base exercises). -/
def intLit (s : Str) : Option (Int × Str) :=
  match s with
  | '-' :: rest =>
    let ds := rest.takeWhile Char.isDigit
    if ds.isEmpty then none
    else some (-(Int.ofNat (natOfDigits ds)), rest.dropWhile Char.isDigit)
  | _ =>
    let ds := s.takeWhile Char.isDigit
    if ds.isEmpty then none
    else some (Int.ofNat (natOfDigits ds), s.dropWhile Char.isDigit)

/-- Mode of the recursive-descent JSON reader: a single value, the items of a
non-empty array, or the fields of a non-empty object. -/
inductive PMode where
  | value
  | arrItems
  | objFields

/-- Result of one reader mode. -/
inductive PRes where
  | value (j : Json)
  | arrItems (l : List Json)
  | objFields (l : List (Str × Json))

/-- The recursive-descent core of JSON.parse, fuelled for structural
recursion (the fuel passed by `jsonParse` always suffices). -/
def parseCore : Nat → PMode → Str → Option (PRes × Str)
  | 0, _, _ => none
  | f + 1, .value, s =>
    match skipWs s with
    | 'n' :: 'u' :: 'l' :: 'l' :: r => some (.value .null, r)
    | 't' :: 'r' :: 'u' :: 'e' :: r => some (.value (.bool true), r)
    | 'f' :: 'a' :: 'l' :: 's' :: 'e' :: r => some (.value (.bool false), r)
    | '"' :: r =>
      match strBody (r.length + 1) r with
      | some (cs, rest) => some (.value (.str cs), rest)
      | none => none
    | '[' :: r =>
      (match skipWs r with
       | ']' :: r2 => some (.value (.arr []), r2)
       | _ =>
         match parseCore f .arrItems r with
         | some (.arrItems l, rest) => some (.value (.arr l), rest)
         | _ => none)
    | '{' :: r =>
      (match skipWs r with
       | '}' :: r2 => some (.value (.obj []), r2)
       | _ =>
         match parseCore f .objFields r with
         | some (.objFields l, rest) => some (.value (.obj l), rest)
         | _ => none)
    | s' =>
      match intLit s' with
      | some (n, rest) => some (.value (.num n), rest)
      | none => none
  | f + 1, .arrItems, s =>
    match parseCore f .value s with
    | some (.value v, rest) =>
      (match skipWs rest with
       | ',' :: r2 =>
         (match parseCore f .arrItems r2 with
          | some (.arrItems l, rr) => some (.arrItems (v :: l), rr)
          | _ => none)
       | ']' :: r2 => some (.arrItems [v], r2)
       | _ => none)
    | _ => none
  | f + 1, .objFields, s =>
    match skipWs s with
    | '"' :: r =>
      (match strBody (r.length + 1) r with
       | some (k, rest) =>
         (match skipWs rest with
          | ':' :: r2 =>
            (match parseCore f .value r2 with
             | some (.value v, rest2) =>
               (match skipWs rest2 with
                | ',' :: r3 =>
                  (match parseCore f .objFields r3 with
                   | some (.objFields l, rr) => some (.objFields ((k, v) :: l), rr)
                   | _ => none)
                | '}' :: r3 => some (.objFields [(k, v)], r3)
                | _ => none)
             | _ => none)
          | _ => none)
       | none => none)
    | _ => none

/-- JSON.parse: parse one value and require only whitespace to follow,
otherwise fail (as JSON.parse throws on trailing input). -/
def jsonParse (s : Str) : Option Json :=
  match parseCore (2 * s.length + 8) .value s with
  | some (.value v, rest) => if (skipWs rest).isEmpty then some v else none
  | _ => none

/-! ## Response parsing (src/api-service.js lines 311 to 379) -/

/-- Model of the greedy regex match `response.match(/\[[\s\S]*\]/)`: the span
from the first opening bracket to the last closing bracket of the whole text,
when the first opening bracket precedes some closing bracket; otherwise no
match. -/
def jsonSpan (text : Str) : Option Str :=
  match text.dropWhile (fun c => c != '[') with
  | [] => none
  | c :: rest =>
    let kept := (rest.reverse.dropWhile (fun c => c != ']')).reverse
    if kept.isEmpty then none else some (c :: kept)

/-- The shared extraction step of both response parsers (src/api-service.js
lines 315 to 326 and 360 to 371): try JSON.parse on the whole text; on failure
extract the bracket span and JSON.parse that; `none` when both fail (the
thrown errors are caught by the enclosing catch). -/
def extractJsonValue (response : Str) : Option Json :=
  match jsonParse response with
  | some v => some v
  | none =>
    match jsonSpan response with
    | some span => jsonParse span
    | none => none

/-- A solution record as built by _parseSolutionsResponse.  Fields hold the
JSON values the JavaScript object holds; `description` is `none` when the
field is absent (as in the fallback record, src/api-service.js lines 339
to 346). -/
structure Solution where
  title : Json
  description : Option Json
  content : Json
  icon : Json
  isAI : Bool

/-- Normalization of one parsed array element (src/api-service.js lines 329
to 335): defaults are substituted via `||` for each field and isAI is forced
true.  A null element makes the property reads throw (caught by the enclosing
catch), modelled by `none`. -/
def normalizeSolution (i : Nat) (j : Json) : Option Solution :=
  match j with
  | .null => none
  | _ =>
    some {
      title := jsOrD (jsPropOpt j "title".data)
        (.str ("Solution " ++ Nat.repr (i + 1)).data),
      description := some (jsOrD (jsPropOpt j "description".data) (.str [])),
      content := jsOrD (jsPropOpt j "content".data) (.str []),
      icon := jsOrD (jsPropOpt j "icon".data) (.str "fas fa-lightbulb".data),
      isAI := true }

/-- `solutions.map((solution, i) => ...)` over the parsed array, from index
`i`: `none` when some element made the mapping throw. -/
def mapSolutionItems : Nat → List Json → Option (List Solution)
  | _, [] => some []
  | i, x :: xs =>
    match normalizeSolution i x with
    | none => none
    | some s =>
      match mapSolutionItems (i + 1) xs with
      | none => none
      | some rest => some (s :: rest)

/-- The synthetic record returned when parsing fails (src/api-service.js
lines 339 to 346): title "AI Solution Approach", content = the raw text, the
robot icon, and no description field. -/
def fallbackSolution (response : Str) : Solution :=
  { title := .str "AI Solution Approach".data,
    description := none,
    content := .str response,
    icon := .str "fas fa-robot".data,
    isAI := true }

/-- _parseSolutionsResponse (src/api-service.js lines 311 to 348).  A parse
result that is not an array makes `solutions.map` throw; every throw inside
the try is caught and degraded to the single synthetic record. -/
def parseSolutionsResponse (response : Str) : List Solution :=
  match extractJsonValue response with
  | some (Json.arr items) =>
    (match mapSolutionItems 0 items with
     | some sols => sols
     | none => [fallbackSolution response])
  | some _ => [fallbackSolution response]
  | none => [fallbackSolution response]

/-- _parseReframingResponse (src/api-service.js lines 356 to 379): the parsed
array is returned as-is; a non-array parse result or a failed extraction
yields the one-element sequence holding the raw text. -/
def parseReframingResponse (response : Str) : List Json :=
  match extractJsonValue response with
  | some (Json.arr items) => items
  | some _ => [Json.str response]
  | none => [Json.str response]

/-! ## The provider gateway: POST /api/openai
(src/unnamed/part_003 lines 32 to 186; src/server.js lines 32 to 144 is an
earlier snapshot of the same handler with the same key check, logging
statement, credit-balance fallback and error propagation). -/

/-- One entry of the normalized request `messages` list. -/
structure Msg where
  role : Str
  content : Str

/-- The parsed body of a POST /api/openai request (the fields the handler
reads).  `messages` is `none` when the field is absent.  Floating-point
constants of the outbound bodies (temperature, penalties) play no role in any
claim and are not modelled. -/
structure ReqBody where
  provider : Option Str
  model : Str
  messages : Option (List Msg)
  maxTokens : Option Nat

/-- Process environment: the two vendor API keys. -/
structure Env where
  openaiKey : Option Str
  anthropicKey : Option Str

/-- The observable shape of one outbound vendor call (url, final model name,
reshaped messages, optional system string, max_tokens). -/
structure VendorRequest where
  url : Str
  model : Str
  system : Option Str
  messages : List Msg
  maxTokens : Nat

/-- What the vendor answers: response.ok, response.status, and the decoded
JSON body. -/
structure VendorResponse where
  ok : Bool
  status : Nat
  data : Json

/-- Outcome of the handler: an HTTP response, or an exception escaping the
handler (no response is sent).  Thrown-and-caught branches carry the V8 error
message where a claim observes it. -/
inductive Outcome where
  | thrown (msg : Str)
  | response (status : Nat) (body : Json)

def openaiUrl : Str := "https://api.openai.com/v1/chat/completions".data

def anthropicUrl : Str := "https://api.anthropic.com/v1/messages".data

/-- The model-alias mapping for Anthropic (src/unnamed/part_003 lines 85
to 94): opus, sonnet and haiku aliases map to dated identifiers, everything
else passes through unchanged. -/
def anthropicFinalModelName (modelName : Str) : Str :=
  if hasSub "opus".data modelName then "claude-3-opus-20240229".data
  else if hasSub "sonnet".data modelName then "claude-3-7-sonnet-20250219".data
  else if hasSub "haiku".data modelName then "claude-3-haiku-20240307".data
  else modelName

/-- Message reshaping for Anthropic (src/unnamed/part_003 lines 66 to 74):
the system role becomes assistant, every other role becomes user. -/
def remapRole (m : Msg) : Msg :=
  { role := if m.role = "system".data then "assistant".data else "user".data,
    content := m.content }

/-- The system string the handler sends to Anthropic (src/unnamed/part_003
line 127). -/
def anthropicSystemPrompt : Str :=
  ("You are an expert problem-solving assistant that carefully considers " ++
   "all provided context including stakeholders, root causes, and impact " ++
   "assessments to generate unique solutions and insights.").data

/-- A `res.status(...).json(\x7b error: msg \x7d)` body. -/
def errJson (msg : Str) : Json := .obj [("error".data, .str msg)]

/-- The condition `data.error?.message?.includes("credit balance")`
(src/unnamed/part_003 line 157), with the short-circuiting of optional
chaining: `none` models a thrown TypeError (null data, or a message value
with no includes method). -/
def creditBalanceFlag (data : Json) : Option Bool :=
  match data with
  | .null => none
  | _ =>
    match jsPropOpt data "error".data with
    | none => some false
    | some Json.null => some false
    | some e =>
      match jsPropOpt e "message".data with
      | none => some false
      | some Json.null => some false
      | some (Json.str m) => some (hasSub "credit balance".data m)
      | some (Json.arr a) => some (a.any (fun x => match x with
          | Json.str s => s == "credit balance".data
          | _ => false))
      | some _ => none

/-- The propagated error body (src/unnamed/part_003 lines 164 to 167):
`\x7b error: data.error or "API request failed", detail: data.error?.message
or data.error?.type or "Unknown error" \x7d`; `none` models the TypeError
thrown when data is null. -/
def errorDetailJson (data : Json) : Option Json :=
  match data with
  | .null => none
  | _ =>
    let errField := jsPropOpt data "error".data
    let chain : Str → Option Json := fun k =>
      match errField with
      | some (Json.obj fs) => lookupField fs k
      | _ => none
    some (.obj [
      ("error".data, jsOrD errField (.str "API request failed".data)),
      ("detail".data,
        jsOrD (chain "message".data)
          (jsOrD (chain "type".data) (.str "Unknown error".data)))])

/-- The value `data.content[0].text` of an Anthropic success
(src/unnamed/part_003 line 175): `none` models a thrown TypeError, inner
`none` models undefined. -/
def anthContentText (data : Json) : Option (Option Json) :=
  match data with
  | .null => none
  | _ =>
    match jsPropOpt data "content".data with
    | none => none
    | some Json.null => none
    | some (Json.arr elems) =>
      (match elems.head? with
       | none => none
       | some Json.null => none
       | some (Json.obj fs) => some (lookupField fs "text".data)
       | some _ => some none)
    | some (Json.str s) => if s.isEmpty then none else some none
    | some (Json.obj fs) =>
      (match lookupField fs "0".data with
       | none => none
       | some Json.null => none
       | some (Json.obj fs2) => some (lookupField fs2 "text".data)
       | some _ => some none)
    | some _ => none

/-- The OpenAI-shaped success envelope the handler rewraps an Anthropic
success into (src/unnamed/part_003 lines 171 to 178); an undefined content
value is dropped by the JSON serializer of res.json. -/
def okEnvelope (content : Option Json) : Json :=
  .obj [("choices".data, .arr [.obj [("message".data,
    .obj (match content with
          | some v => [("content".data, v)]
          | none => []))]])]

/-- The POST /api/openai handler (src/unnamed/part_003 lines 32 to 186),
given the environment, the request body, and an oracle for the outbound
vendor call.  Returns the outcome together with the list of outbound vendor
calls made.  The model-availability pre-check of lines 96 to 119 sits in its
own try/catch whose catch only logs, so it cannot change the outcome and is
not modelled.  The credit-balance fallback of lines 156 to 162 calls
handleAPIRequest, a function defined nowhere in the file, so the call throws
a ReferenceError that the catch of line 182 turns into a 500 response. -/
def handlePost (env : Env) (body : ReqBody) (call : VendorRequest → VendorResponse) :
    Outcome × List VendorRequest :=
  let provider := jsOrStr body.provider "openai".data
  let apiKey := if provider = "anthropic".data then env.anthropicKey else env.openaiKey
  match body.messages with
  | none => (.thrown "Cannot read properties of undefined (reading 1)".data, [])
  | some msgs =>
    match msgs.get? 1 with
    | none => (.thrown "Cannot read properties of undefined (reading content)".data, [])
    | some _ =>
      if strFalsy apiKey then
        (.response 500 (errJson (toUpperStr provider ++ " API key not configured".data)), [])
      else
        let formatted := if provider = "anthropic".data then msgs.map remapRole else msgs
        let reqB : VendorRequest :=
          if provider = "anthropic".data then
            { url := anthropicUrl,
              model := anthropicFinalModelName body.model,
              system := some anthropicSystemPrompt,
              messages := [{ role := "user".data,
                             content := (formatted.getLastD { role := [], content := [] }).content }],
              maxTokens := 4000 }
          else
            { url := openaiUrl,
              model := jsOrStr (some body.model) "gpt-4".data,
              system := none,
              messages := formatted,
              maxTokens := jsOrNat body.maxTokens 4000 }
        let resp := call reqB
        if resp.ok = false then
          if provider = "anthropic".data then
            match creditBalanceFlag resp.data with
            | none =>
              (.response 500 (errJson "TypeError in credit balance check".data), [reqB])
            | some true =>
              (.response 500 (errJson "handleAPIRequest is not defined".data), [reqB])
            | some false =>
              (match errorDetailJson resp.data with
               | none =>
                 (.response 500 (errJson "Cannot read properties of null (reading error)".data), [reqB])
               | some e => (.response resp.status e, [reqB]))
          else
            match errorDetailJson resp.data with
            | none =>
              (.response 500 (errJson "Cannot read properties of null (reading error)".data), [reqB])
            | some e => (.response resp.status e, [reqB])
        else
          if provider = "anthropic".data then
            match anthContentText resp.data with
            | none =>
              (.response 500 (errJson "Cannot read properties of undefined (reading text)".data), [reqB])
            | some t => (.response 200 (okEnvelope t), [reqB])
          else
            (.response 200 resp.data, [reqB])

/-! ## The client-side retry wrapper _callOpenAI
(src/unnamed/part_002 lines 165 to 215). -/

/-- What the _callOpenAI promise settles to: a content string, undefined
(falling off the retry loop), or a rejection. -/
inductive ClientResult where
  | value (s : Str)
  | undef
  | raised (e : Str)

/-- The body of the retry for-loop of _callOpenAI (src/unnamed/part_002 lines
176 to 214), iterating over the attempt indices `List.range retryCount`.
Each attempt either returns the content, or on a thrown error runs the
source's retry guard `attempt < this.retryCount` (inside the loop this guard
is always true, so the `throw lastError` after it is unreachable): sleep
1000 * (attempt + 1) milliseconds and continue.  When the loop exhausts its
indices the function returns undefined. -/
def callAttempts (attempts : Nat → Except Str Str) (retryCount : Nat) :
    List Nat → List Nat → ClientResult × List Nat
  | [], sleeps => (.undef, sleeps)
  | attempt :: rest, sleeps =>
    match attempts attempt with
    | .ok s => (.value s, sleeps)
    | .error e =>
      if attempt < retryCount then
        callAttempts attempts retryCount rest (sleeps ++ [1000 * (attempt + 1)])
      else (.raised e, sleeps)

/-- _callOpenAI (src/unnamed/part_002 lines 165 to 215): after the config
check, run up to `this.retryCount = 3` attempts.  `attempts i` is the result
of the i-th fetch round trip (ok: the extracted message content; error: the
thrown error).  Returns the settlement together with the list of sleep
durations in milliseconds. -/
def callOpenAI (apiKeyConfigured : Bool) (attempts : Nat → Except Str Str) :
    ClientResult × List Nat :=
  if apiKeyConfigured = false then
    (.raised "OpenAI API key not configured. Please set it in Replit Secrets.".data, [])
  else callAttempts attempts 3 (List.range 3) []

/-! ## GET /api/config (src/server.js lines 16 to 27,
src/unnamed/part_003 lines 16 to 27). -/

/-- `OPENAI_API_KEY.substring(0, 3)`. -/
def hintPrefixSlice (key : Str) : Str := key.take 3

/-- `OPENAI_API_KEY.substring(OPENAI_API_KEY.length - 4)`; JavaScript
substring clamps a negative start to 0, exactly as Nat subtraction does. -/
def hintSuffixSlice (key : Str) : Str := key.drop (key.length - 4)

/-- The apiKeyHint string built by GET /api/config (src/server.js lines 18
to 20). -/
def apiKeyHint (key : Str) : Str :=
  hintPrefixSlice key ++ "...".data ++ hintSuffixSlice key

/-! ## Claim theorems -/

/-- Environment with both vendor keys configured. -/
def c1Env : Env := { openaiKey := some "sk-openai-key".data, anthropicKey := some "sk-ant-key".data }

/-- An Anthropic-routed request body with a well-formed messages list. -/
def c1Body : ReqBody :=
  { provider := some "anthropic".data, model := "claude-3-opus".data,
    messages := some [{ role := "system".data, content := "You are an assistant".data },
                      { role := "user".data, content := "Problem: test".data }],
    maxTokens := none }

/-- A vendor oracle whose answer is the Anthropic insufficient-credit error. -/
def c1Call : VendorRequest → VendorResponse :=
  fun _ => { ok := false, status := 400,
             data := Json.obj [("error".data, Json.obj [("message".data,
               Json.str "Your credit balance is too low to access the Anthropic API".data)])] }

/-- C1: the claim says a credit-balance failure from Anthropic triggers
exactly one retry against OpenAI with model gpt-4 whose result is returned.
The code instead calls handleAPIRequest, which is defined nowhere in the
file, so the fallback path throws a ReferenceError that the catch turns into
a 500 response, and no OpenAI call is ever made: the only outbound call of
the whole handling is the original Anthropic one. -/
theorem creditFallback_referenceError :
    (handlePost c1Env c1Body c1Call).1
      = Outcome.response 500 (errJson "handleAPIRequest is not defined".data)
    ∧ (handlePost c1Env c1Body c1Call).2.map VendorRequest.url = [anthropicUrl] :=
  ⟨rfl, rfl⟩

/-- C2: the claim says the client retry wrapper re-raises the final error
when every attempt fails.  The retry guard `attempt < this.retryCount` is
always true inside the loop, so the `throw lastError` after it is dead code:
after the third failed attempt the code sleeps another 3 seconds, the loop
exhausts, and the promise resolves with undefined instead of re-raising. -/
theorem clientRetry_swallows_final_error :
    callOpenAI true (fun _ => Except.error "network failure".data)
      = (ClientResult.undef, [1000, 2000, 3000]) := rfl

/-- C4: when both the direct JSON.parse and the bracket-span extraction fail,
_parseSolutionsResponse returns exactly the one synthetic record (title
"AI Solution Approach", content = the raw text, robot icon, no description
field) and _parseReframingResponse returns exactly the one-element sequence
holding the raw text; neither parser raises (both are total functions of the
input here, every throw inside the try being caught). -/
theorem parsers_never_raise_fallback (response : Str)
    (hdirect : jsonParse response = none) (hspan : jsonSpan response = none) :
    parseSolutionsResponse response
      = [{ title := .str "AI Solution Approach".data, description := none,
           content := .str response, icon := .str "fas fa-robot".data, isAI := true }]
    ∧ parseReframingResponse response = [Json.str response] := by
  refine ⟨?_, ?_⟩
  · simp only [parseSolutionsResponse, extractJsonValue, hdirect, hspan]
    rfl
  · simp only [parseReframingResponse, extractJsonValue, hdirect, hspan]

/-- C4 witness: a concrete bracket-free input. -/
theorem parsers_never_raise_fallback_witness :
    parseSolutionsResponse "no json here".data
      = [{ title := .str "AI Solution Approach".data, description := none,
           content := .str "no json here".data, icon := .str "fas fa-robot".data, isAI := true }]
    ∧ parseReframingResponse "no json here".data = [Json.str "no json here".data] :=
  parsers_never_raise_fallback "no json here".data rfl rfl

/-- C6: normalization substitutes defaults for missing fields of each parsed
array element: title defaults to "Solution N" with N the 1-indexed position
(the element at 0-based index i gets `Nat.repr (i + 1)`), description and
content default to the empty string, icon defaults to the lightbulb
identifier, and isAI is true regardless of the input object. -/
theorem normalizeSolution_defaults (i : Nat) (fields : List (Str × Json)) (s : Solution)
    (h : normalizeSolution i (Json.obj fields) = some s) :
    (lookupField fields "title".data = none →
      s.title = Json.str ("Solution " ++ Nat.repr (i + 1)).data)
    ∧ (lookupField fields "description".data = none → s.description = some (Json.str []))
    ∧ (lookupField fields "content".data = none → s.content = Json.str [])
    ∧ (lookupField fields "icon".data = none → s.icon = Json.str "fas fa-lightbulb".data)
    ∧ s.isAI = true := by
  have hs : ({ title := jsOrD (jsPropOpt (Json.obj fields) "title".data)
                 (.str ("Solution " ++ Nat.repr (i + 1)).data),
               description := some (jsOrD (jsPropOpt (Json.obj fields) "description".data) (.str [])),
               content := jsOrD (jsPropOpt (Json.obj fields) "content".data) (.str []),
               icon := jsOrD (jsPropOpt (Json.obj fields) "icon".data) (.str "fas fa-lightbulb".data),
               isAI := true } : Solution) = s := by
    simpa only [normalizeSolution, Option.some.injEq] using h
  subst hs
  refine ⟨?_, ?_, ?_, ?_, rfl⟩ <;> intro hnone <;>
    simp only [jsPropOpt, hnone, jsOrD]

/-- The record produced by normalizing the empty object at index 0. -/
def c6Rec : Solution :=
  { title := .str ("Solution " ++ Nat.repr 1).data,
    description := some (.str []),
    content := .str [],
    icon := .str "fas fa-lightbulb".data,
    isAI := true }

/-- C6 witness: the empty object at index 0 receives every default. -/
theorem normalizeSolution_defaults_witness :
    c6Rec.title = Json.str ("Solution " ++ Nat.repr 1).data
    ∧ c6Rec.description = some (Json.str [])
    ∧ c6Rec.content = Json.str []
    ∧ c6Rec.icon = Json.str "fas fa-lightbulb".data
    ∧ c6Rec.isAI = true := by
  have h := normalizeSolution_defaults 0 [] c6Rec rfl
  exact ⟨h.1 rfl, h.2.1 rfl, h.2.2.1 rfl, h.2.2.2.1 rfl, h.2.2.2.2⟩

/-- C9: a request whose messages field is absent or shorter than two entries
makes the handler throw while the logging statement evaluates
req.body.messages[1].content, before the API-key check, so no response of any
kind (in particular no structured error body) is ever produced for it. -/
theorem messages_length_precondition (env : Env) (body : ReqBody)
    (call : VendorRequest → VendorResponse)
    (h : body.messages = none ∨ ∃ msgs, body.messages = some msgs ∧ msgs.length < 2) :
    (∃ m, (handlePost env body call).1 = Outcome.thrown m)
    ∧ ∀ st b, (handlePost env body call).1 ≠ Outcome.response st b := by
  have hthrown : ∃ m, (handlePost env body call).1 = Outcome.thrown m := by
    rcases h with h | ⟨msgs, hm, hlen⟩
    · exact ⟨"Cannot read properties of undefined (reading 1)".data,
        by simp only [handlePost, h]⟩
    · have hget : msgs.get? 1 = none := by
        cases msgs with
        | nil => rfl
        | cons a t =>
          cases t with
          | nil => rfl
          | cons b t2 =>
            exfalso
            simp only [List.length_cons] at hlen
            omega
      exact ⟨"Cannot read properties of undefined (reading content)".data,
        by simp only [handlePost, hm, hget]⟩
  refine ⟨hthrown, ?_⟩
  obtain ⟨m, hm2⟩ := hthrown
  intro st b hh
  rw [hm2] at hh
  exact Outcome.noConfusion hh

/-- C9 witness: a request with no messages field, with no key configured,
still gets no response at all rather than the configuration error. -/
theorem messages_length_precondition_witness :
    (handlePost { openaiKey := none, anthropicKey := none }
        { provider := some "openai".data, model := "gpt-4".data, messages := none, maxTokens := none }
        (fun _ => { ok := true, status := 200, data := Json.null })).1
      ≠ Outcome.response 500 (errJson "OPENAI API key not configured".data) :=
  (messages_length_precondition _ _ _ (Or.inl rfl)).2 500 _

/-- C7 counterexample: the claim quantifies over every request with provider
"openai" while the key is absent, but a request whose messages field is
absent throws in the logging statement before the key check, so it never
receives the documented 500 configuration error. -/
theorem openai_key_missing_500_cex :
    (handlePost { openaiKey := none, anthropicKey := none }
        { provider := some "openai".data, model := "gpt-4".data, messages := none, maxTokens := none }
        (fun _ => { ok := true, status := 200, data := Json.null })).1
      = Outcome.thrown "Cannot read properties of undefined (reading 1)".data
    ∧ (handlePost { openaiKey := none, anthropicKey := none }
        { provider := some "openai".data, model := "gpt-4".data, messages := none, maxTokens := none }
        (fun _ => { ok := true, status := 200, data := Json.null })).1
      ≠ Outcome.response 500 (errJson "OPENAI API key not configured".data) := by
  refine ⟨rfl, ?_⟩
  intro hh
  exact Outcome.noConfusion hh

/-- C7 (amended): for requests whose messages list is present with at least
two entries, provider "openai" with the OPENAI_API_KEY absent yields the 500
response with body error "OPENAI API key not configured". -/
theorem openai_key_missing_500 (env : Env) (body : ReqBody) (msgs : List Msg)
    (call : VendorRequest → VendorResponse)
    (hprov : body.provider = some "openai".data)
    (hmsgs : body.messages = some msgs) (hlen : 2 ≤ msgs.length)
    (hkey : env.openaiKey = none) :
    (handlePost env body call).1
      = Outcome.response 500 (errJson "OPENAI API key not configured".data) := by
  obtain ⟨provF, modelF, messagesF, maxTokF⟩ := body
  obtain ⟨okF, akF⟩ := env
  dsimp only at hprov hmsgs hkey
  subst hprov hmsgs hkey
  cases msgs with
  | nil => exact absurd hlen (by simp)
  | cons a t =>
    cases t with
    | nil => exact absurd hlen (by simp)
    | cons b t2 => rfl

/-- C7 witness: a concrete such request. -/
theorem openai_key_missing_500_witness :
    (handlePost { openaiKey := none, anthropicKey := some "ak".data }
        { provider := some "openai".data, model := "gpt-4".data,
          messages := some [{ role := "system".data, content := "s".data },
                            { role := "user".data, content := "u".data }],
          maxTokens := none }
        (fun _ => { ok := true, status := 200, data := Json.null })).1
      = Outcome.response 500 (errJson "OPENAI API key not configured".data) :=
  openai_key_missing_500 _ _ _ _ rfl rfl (by simp) rfl

/-- C10: the apiKeyHint of GET /api/config is the first three characters,
an ellipsis, and the last four characters of OPENAI_API_KEY; for every key of
length at most seven the two slices cover every character position, and the
whole key is reconstructed by concatenating the prefix slice with the part of
the suffix slice past the overlap, so the hint discloses the entire key. -/
theorem apiKeyHint_short_key_disclosure (key : Str) (h : key.length ≤ 7) :
    apiKeyHint key = hintPrefixSlice key ++ "...".data ++ hintSuffixSlice key
    ∧ (∀ i, i < key.length → i < 3 ∨ key.length - 4 ≤ i)
    ∧ hintPrefixSlice key ++ (hintSuffixSlice key).drop (3 - (key.length - 4)) = key := by
  refine ⟨rfl, ?_, ?_⟩
  · intro i hi
    omega
  · unfold hintPrefixSlice hintSuffixSlice
    rw [List.drop_drop]
    have h3 : key.length - 4 + (3 - (key.length - 4)) = 3 := by omega
    rw [h3, List.take_append_drop]

/-- C10 witness: a seven-character key is fully disclosed. -/
theorem apiKeyHint_short_key_disclosure_witness :
    "sk-1234".data.length ≤ 7
    ∧ hintPrefixSlice "sk-1234".data
        ++ (hintSuffixSlice "sk-1234".data).drop (3 - ("sk-1234".data.length - 4))
      = "sk-1234".data :=
  ⟨by decide, (apiKeyHint_short_key_disclosure "sk-1234".data (by decide)).2.2⟩

/-- dropWhile skips a whole prefix on which the predicate holds. -/
lemma dropWhile_append_all {p : Char → Bool} {pre : Str} (l : Str)
    (h : ∀ c ∈ pre, p c = true) :
    (pre ++ l).dropWhile p = l.dropWhile p := by
  induction pre with
  | nil => rfl
  | cons a as ih =>
    have ha : p a = true := h a (List.mem_cons_self a as)
    simp only [List.cons_append, List.dropWhile, ha]
    exact ih (fun c hc => h c (List.mem_cons_of_mem a hc))

/-- The greedy bracket-span match on a text made of a bracket-span between
prose that contains no opening bracket before it and no closing bracket
after it recovers exactly the span. -/
lemma jsonSpan_embedded (pre mid post : Str)
    (hpre : ∀ c ∈ pre, c ≠ '[') (hpost : ∀ c ∈ post, c ≠ ']') :
    jsonSpan (pre ++ ('[' :: (mid ++ [']'])) ++ post)
      = some ('[' :: (mid ++ [']'])) := by
  have hpre2 : ∀ c ∈ pre, (fun c => c != '[') c = true := by
    intro c hc
    simpa using hpre c hc
  have hpost2 : ∀ c ∈ post.reverse, (fun c => c != ']') c = true := by
    intro c hc
    simpa using hpost c (List.mem_reverse.mp hc)
  have hstep1 : (pre ++ ('[' :: (mid ++ [']'])) ++ post).dropWhile (fun c => c != '[')
      = '[' :: ((mid ++ [']']) ++ post) := by
    rw [List.append_assoc, dropWhile_append_all _ hpre2]
    simp [List.dropWhile]
  have hstep2 : ((((mid ++ [']']) ++ post).reverse).dropWhile (fun c => c != ']')).reverse
      = mid ++ [']'] := by
    rw [List.reverse_append, dropWhile_append_all _ hpost2]
    simp [List.dropWhile]
  have hne : (mid ++ [']']).isEmpty = false := by
    cases mid <;> rfl
  simp only [jsonSpan, hstep1, hstep2, hne]
  rfl

/-- C3 (amended): for a text made of a valid JSON solution array between
prose whose leading part contains no opening bracket and whose trailing part
contains no closing bracket, when the direct parse of the whole text fails
and the array elements normalize without throwing, _parseSolutionsResponse
returns exactly the normalization of that array. -/
theorem parseSolutions_extracts_embedded_array
    (pre mid post : Str) (items : List Json) (sols : List Solution)
    (hpre : ∀ c ∈ pre, c ≠ '[') (hpost : ∀ c ∈ post, c ≠ ']')
    (hdirect : jsonParse (pre ++ ('[' :: (mid ++ [']'])) ++ post) = none)
    (hspan : jsonParse ('[' :: (mid ++ [']'])) = some (Json.arr items))
    (hmap : mapSolutionItems 0 items = some sols) :
    parseSolutionsResponse (pre ++ ('[' :: (mid ++ [']'])) ++ post) = sols := by
  have hext : extractJsonValue (pre ++ ('[' :: (mid ++ [']'])) ++ post)
      = some (Json.arr items) := by
    simp only [extractJsonValue, hdirect, jsonSpan_embedded pre mid post hpre hpost, hspan]
  simp only [parseSolutionsResponse, hext, hmap]

/-- C3 witness: the scenario of the specification, prose around one
solution-shaped object. -/
theorem parseSolutions_extracts_embedded_array_witness :
    parseSolutionsResponse "blah [\x7b\"title\":\"X\"\x7d] blah".data
      = [{ title := Json.str "X".data, description := some (Json.str []),
           content := Json.str [], icon := Json.str "fas fa-lightbulb".data, isAI := true }] :=
  parseSolutions_extracts_embedded_array
    "blah ".data "\x7b\"title\":\"X\"\x7d".data " blah".data
    [Json.obj [("title".data, Json.str "X".data)]]
    [{ title := Json.str "X".data, description := some (Json.str []),
       content := Json.str [], icon := Json.str "fas fa-lightbulb".data, isAI := true }]
    (by decide) (by decide) rfl rfl rfl

/-- Title characters of the first record of a solution list (used to
separate two solution lists). -/
def firstTitleChars (l : List Solution) : Str :=
  match l with
  | s :: _ =>
    (match s.title with
     | Json.str cs => cs
     | _ => [])
  | [] => []

/-- The text of the C3 counterexample: a valid JSON solution array embedded
in prose that itself contains an earlier bracket. -/
def c3Text : Str := "see [1] note [\x7b\"title\":\"X\"\x7d] end".data

/-- C3 counterexample: the claim quantifies over arbitrary surrounding
prose, but when the prose before the array contains a bracket of its own the
greedy span match grabs from that bracket to the last closing bracket, the
extracted span is not valid JSON, and the parser degrades to the synthetic
fallback record instead of the embedded array. -/
theorem parseSolutions_arbitrary_prose_cex :
    jsonParse "[\x7b\"title\":\"X\"\x7d]".data
      = some (Json.arr [Json.obj [("title".data, Json.str "X".data)]])
    ∧ parseSolutionsResponse c3Text = [fallbackSolution c3Text]
    ∧ parseSolutionsResponse c3Text
        ≠ [{ title := Json.str "X".data, description := some (Json.str []),
             content := Json.str [], icon := Json.str "fas fa-lightbulb".data, isAI := true }] := by
  refine ⟨rfl, rfl, ?_⟩
  intro h
  exact absurd (congrArg firstTitleChars h) (by decide)

/-- The single outbound message the handler builds for Anthropic (the last
reshaped message, as a user message). -/
def anthOutMsg (msgs : List Msg) : Msg :=
  { role := "user".data,
    content := ((msgs.map remapRole).getLastD { role := [], content := [] }).content }

/-- The outbound vendor request the handler builds for Anthropic. -/
def anthReqOf (modelF : Str) (msgs : List Msg) : VendorRequest :=
  { url := anthropicUrl, model := anthropicFinalModelName modelF,
    system := some anthropicSystemPrompt,
    messages := [anthOutMsg msgs],
    maxTokens := 4000 }

/-- The outbound vendor request the handler builds for OpenAI. -/
def openaiReqOf (modelF : Str) (msgs : List Msg) (maxTokF : Option Nat) : VendorRequest :=
  { url := openaiUrl, model := jsOrStr (some modelF) "gpt-4".data,
    system := none, messages := msgs,
    maxTokens := jsOrNat maxTokF 4000 }

/-- Reduction of the handler on an Anthropic-routed request with a
configured key and a well-formed messages list, exposing the single outbound
request it builds and the response handling around it. -/
lemma handlePost_anthropic_reduce (okF : Option Str) (akKey modelF : Str)
    (a b : Msg) (t2 : List Msg) (maxTokF : Option Nat)
    (call : VendorRequest → VendorResponse) (hk : akKey.isEmpty = false) :
    handlePost { openaiKey := okF, anthropicKey := some akKey }
        { provider := some "anthropic".data, model := modelF,
          messages := some (a :: b :: t2), maxTokens := maxTokF } call
      = (if (call (anthReqOf modelF (a :: b :: t2))).ok = false then
           match creditBalanceFlag (call (anthReqOf modelF (a :: b :: t2))).data with
           | none => (Outcome.response 500 (errJson "TypeError in credit balance check".data),
               [anthReqOf modelF (a :: b :: t2)])
           | some true => (Outcome.response 500 (errJson "handleAPIRequest is not defined".data),
               [anthReqOf modelF (a :: b :: t2)])
           | some false =>
             match errorDetailJson (call (anthReqOf modelF (a :: b :: t2))).data with
             | none => (Outcome.response 500
                 (errJson "Cannot read properties of null (reading error)".data),
                 [anthReqOf modelF (a :: b :: t2)])
             | some e => (Outcome.response (call (anthReqOf modelF (a :: b :: t2))).status e,
                 [anthReqOf modelF (a :: b :: t2)])
         else
           match anthContentText (call (anthReqOf modelF (a :: b :: t2))).data with
           | none => (Outcome.response 500
               (errJson "Cannot read properties of undefined (reading text)".data),
               [anthReqOf modelF (a :: b :: t2)])
           | some t => (Outcome.response 200 (okEnvelope t),
               [anthReqOf modelF (a :: b :: t2)])) := by
  cases akKey with
  | nil => exact absurd hk (by simp)
  | cons c cs => rfl

/-- Reduction of the handler on an OpenAI-routed request with a configured
key and a well-formed messages list. -/
lemma handlePost_openai_reduce (okKey : Str) (akF : Option Str) (modelF : Str)
    (a b : Msg) (t2 : List Msg) (maxTokF : Option Nat)
    (call : VendorRequest → VendorResponse) (hk : okKey.isEmpty = false) :
    handlePost { openaiKey := some okKey, anthropicKey := akF }
        { provider := some "openai".data, model := modelF,
          messages := some (a :: b :: t2), maxTokens := maxTokF } call
      = (if (call (openaiReqOf modelF (a :: b :: t2) maxTokF)).ok = false then
           match errorDetailJson (call (openaiReqOf modelF (a :: b :: t2) maxTokF)).data with
           | none => (Outcome.response 500
               (errJson "Cannot read properties of null (reading error)".data),
               [openaiReqOf modelF (a :: b :: t2) maxTokF])
           | some e => (Outcome.response (call (openaiReqOf modelF (a :: b :: t2) maxTokF)).status e,
               [openaiReqOf modelF (a :: b :: t2) maxTokF])
         else (Outcome.response 200 (call (openaiReqOf modelF (a :: b :: t2) maxTokF)).data,
             [openaiReqOf modelF (a :: b :: t2) maxTokF])) := by
  cases okKey with
  | nil => exact absurd hk (by simp)
  | cons c cs => rfl

/-- C5: the gateway output envelope is vendor-independent: an Anthropic
success (whose content block evaluates without throwing, as every well-formed
Anthropic success does) is rewrapped into the OpenAI-shaped envelope
before returning, and an OpenAI success is passed through unchanged. -/
theorem gateway_envelope_vendor_independent (env : Env) (body : ReqBody) (msgs : List Msg)
    (call : VendorRequest → VendorResponse)
    (hmsgs : body.messages = some msgs) (hlen : 2 ≤ msgs.length) :
    (∀ akKey, body.provider = some "anthropic".data →
        env.anthropicKey = some akKey → akKey.isEmpty = false →
        (∀ r, (call r).ok = true) →
        ∀ v, (∀ r, anthContentText (call r).data = some v) →
        (handlePost env body call).1 = Outcome.response 200 (okEnvelope v))
    ∧ (∀ okKey, body.provider = some "openai".data →
        env.openaiKey = some okKey → okKey.isEmpty = false →
        (∀ r, (call r).ok = true) →
        ∀ d, (∀ r, (call r).data = d) →
        (handlePost env body call).1 = Outcome.response 200 d) := by
  obtain ⟨provF, modelF, messagesF, maxTokF⟩ := body
  obtain ⟨okF, akF⟩ := env
  dsimp only at hmsgs
  subst hmsgs
  rcases msgs with _ | ⟨a, _ | ⟨b, t2⟩⟩
  · exact absurd hlen (by simp)
  · exact absurd hlen (by simp)
  constructor
  · intro akKey hprov hkey hk hok v hv
    dsimp only at hprov hkey
    subst hprov hkey
    rw [handlePost_anthropic_reduce okF akKey modelF a b t2 maxTokF call hk]
    rw [hok (anthReqOf modelF (a :: b :: t2))]
    rw [if_neg (by simp)]
    rw [hv (anthReqOf modelF (a :: b :: t2))]
  · intro okKey hprov hkey hk hok d hd
    dsimp only at hprov hkey
    subst hprov hkey
    rw [handlePost_openai_reduce okKey akF modelF a b t2 maxTokF call hk]
    rw [hok (openaiReqOf modelF (a :: b :: t2) maxTokF)]
    rw [if_neg (by simp)]
    rw [hd (openaiReqOf modelF (a :: b :: t2) maxTokF)]

/-- Environment for the gateway witnesses: both keys configured. -/
def wEnv : Env := { openaiKey := some "sk".data, anthropicKey := some "ak".data }

/-- A well-formed two-message list. -/
def wMsgs : List Msg :=
  [{ role := "system".data, content := "s".data },
   { role := "user".data, content := "u".data }]

/-- An Anthropic-routed request body. -/
def wBodyAnth : ReqBody :=
  { provider := some "anthropic".data, model := "claude-3-opus".data,
    messages := some wMsgs, maxTokens := none }

/-- An OpenAI-routed request body. -/
def wBodyOai : ReqBody :=
  { provider := some "openai".data, model := "gpt-4".data,
    messages := some wMsgs, maxTokens := none }

/-- A well-formed Anthropic success body. -/
def wDataAnth : Json :=
  Json.obj [("content".data, Json.arr [Json.obj [("text".data, Json.str "hello".data)]])]

/-- A well-formed OpenAI success body. -/
def wDataOai : Json :=
  Json.obj [("choices".data, Json.arr [Json.obj [("message".data,
    Json.obj [("content".data, Json.str "ok".data)])]])]

/-- A vendor oracle answering the Anthropic success. -/
def wCallAnth : VendorRequest → VendorResponse :=
  fun _ => { ok := true, status := 200, data := wDataAnth }

/-- A vendor oracle answering the OpenAI success. -/
def wCallOai : VendorRequest → VendorResponse :=
  fun _ => { ok := true, status := 200, data := wDataOai }

/-- C5 witness: a concrete Anthropic success is rewrapped, a concrete OpenAI
success passes through. -/
theorem gateway_envelope_vendor_independent_witness :
    (handlePost wEnv wBodyAnth wCallAnth).1
      = Outcome.response 200 (okEnvelope (some (Json.str "hello".data)))
    ∧ (handlePost wEnv wBodyOai wCallOai).1 = Outcome.response 200 wDataOai := by
  constructor
  · exact (gateway_envelope_vendor_independent wEnv wBodyAnth wMsgs wCallAnth rfl (by decide)).1
      "ak".data rfl rfl rfl (fun r => rfl) (some (Json.str "hello".data)) (fun r => rfl)
  · exact (gateway_envelope_vendor_independent wEnv wBodyOai wMsgs wCallOai rfl (by decide)).2
      "sk".data rfl rfl rfl (fun r => rfl) wDataOai (fun r => rfl)

/-- C8: on every Anthropic-routed request the model of the one outbound
vendor call is the alias mapping of the request model: aliases containing
opus, sonnet or haiku (in that precedence) become the dated vendor
identifiers, and everything else passes through unchanged. -/
theorem anthropic_model_alias_mapping (env : Env) (body : ReqBody) (msgs : List Msg)
    (call : VendorRequest → VendorResponse) (akKey : Str)
    (hprov : body.provider = some "anthropic".data)
    (hmsgs : body.messages = some msgs) (hlen : 2 ≤ msgs.length)
    (hkey : env.anthropicKey = some akKey) (hk : akKey.isEmpty = false) :
    (handlePost env body call).2.map VendorRequest.model
      = [anthropicFinalModelName body.model]
    ∧ (hasSub "opus".data body.model = true →
        (handlePost env body call).2.map VendorRequest.model
          = ["claude-3-opus-20240229".data])
    ∧ (hasSub "opus".data body.model = false →
        hasSub "sonnet".data body.model = true →
        (handlePost env body call).2.map VendorRequest.model
          = ["claude-3-7-sonnet-20250219".data])
    ∧ (hasSub "opus".data body.model = false →
        hasSub "sonnet".data body.model = false →
        hasSub "haiku".data body.model = true →
        (handlePost env body call).2.map VendorRequest.model
          = ["claude-3-haiku-20240307".data])
    ∧ (hasSub "opus".data body.model = false →
        hasSub "sonnet".data body.model = false →
        hasSub "haiku".data body.model = false →
        (handlePost env body call).2.map VendorRequest.model = [body.model]) := by
  obtain ⟨provF, modelF, messagesF, maxTokF⟩ := body
  obtain ⟨okF, akF⟩ := env
  dsimp only at hprov hmsgs hkey
  subst hprov hmsgs hkey
  rcases msgs with _ | ⟨a, _ | ⟨b, t2⟩⟩
  · exact absurd hlen (by simp)
  · exact absurd hlen (by simp)
  have hmain : (handlePost { openaiKey := okF, anthropicKey := some akKey }
      { provider := some "anthropic".data, model := modelF,
        messages := some (a :: b :: t2), maxTokens := maxTokF } call).2.map VendorRequest.model
      = [anthropicFinalModelName modelF] := by
    rw [handlePost_anthropic_reduce okF akKey modelF a b t2 maxTokF call hk]
    repeat' split
    all_goals rfl
  refine ⟨hmain, ?_, ?_, ?_, ?_⟩
  · intro h1
    rw [hmain]
    simp [anthropicFinalModelName, h1]
  · intro h1 h2
    rw [hmain]
    simp [anthropicFinalModelName, h1, h2]
  · intro h1 h2 h3
    rw [hmain]
    simp [anthropicFinalModelName, h1, h2, h3]
  · intro h1 h2 h3
    rw [hmain]
    simp [anthropicFinalModelName, h1, h2, h3]

/-- C8 witness: model claude-3-opus is sent to Anthropic as the dated
identifier claude-3-opus-20240229. -/
theorem anthropic_model_alias_mapping_witness :
    hasSub "opus".data "claude-3-opus".data = true
    ∧ (handlePost wEnv wBodyAnth wCallAnth).2.map VendorRequest.model
        = ["claude-3-opus-20240229".data] := by
  refine ⟨rfl, ?_⟩
  exact (anthropic_model_alias_mapping wEnv wBodyAnth wMsgs wCallAnth "ak".data
    rfl rfl (by decide) rfl rfl).2.1 rfl

